import Mathlib

/-!
# Verification of the MotionsAssistant orchestration pipeline

A shallow embedding, in Lean 4, of the core logic of `main.py` of the
MotionsAssistant repository: the persisted configuration registry
(`load_cfg`/`save_cfg`), the lazy vector-store provisioning in the admin
upload form, the HTML→PDF conversion wrapper (`convert_html_to_pdf` and
`handle_function_call`), the streaming drafting orchestrator
(`stream_response_with_file_search`), the per-turn context assembly
(`context_parts` / `motion_context`), and the chat turn handler.

External effects (the OpenAI Responses API, the Gemini extraction call,
the PDF.co backend, HTTP downloads) are modelled as explicit oracles
passed in through an `Env` record, so every definition is an executable
function of its inputs.  Bytes are modelled as `List Nat`; Python string
truthiness is the explicit test against `""`, and Python `None` is
`Option.none`.
-/

set_option maxRecDepth 4096

namespace MotionsAssistant

/-- Byte strings (`bytes` in Python) as lists of byte values. -/
abbrev ByteSeq := List Nat

/-- A downloadable file: `(filename, bytes)` exactly as the Python code
passes them around. -/
abbrev DlFile := String × ByteSeq

/-! ## Persisted configuration (`load_cfg` / `save_cfg`, main.py lines 25-35)

The configuration file is a JSON object.  We model its parsed form as a
record with the (optional) `vector_stores` key plus any other top-level
string-valued entries, and the file itself as `Option CfgJson`
(`none` = the file does not exist). -/

/-- The parsed JSON object that may sit in `config2.json`: an optional
`vector_stores` mapping plus any other top-level entries. -/
structure CfgJson where
  vector_stores : Option (List (String × String))
  extra : List (String × String)
deriving DecidableEq, Repr

/-- The in-memory configuration dict after `load_cfg` has run: the
`vector_stores` key is always present (defaulted to `{}`), other
entries are kept as loaded. -/
structure Cfg where
  vector_stores : List (String × String)
  extra : List (String × String)
deriving DecidableEq, Repr

/-- `load_cfg` (main.py lines 25-31): a missing file yields
`{"vector_stores": {}}`; otherwise the file is parsed and
`cfg.setdefault("vector_stores", {})` fills in the key if absent. -/
def load_cfg : Option CfgJson → Cfg
  | none => ⟨[], []⟩
  | some j => ⟨j.vector_stores.getD [], j.extra⟩

/-- `save_cfg` (main.py lines 33-35): `json.dump` overwrites the whole
file with every key of the in-memory dict. -/
def save_cfg (c : Cfg) : Option CfgJson :=
  some ⟨some c.vector_stores, c.extra⟩

/-! ## HTML→PDF conversion (`convert_html_to_pdf`, main.py lines 350-403)

The PDF.co round trip is modelled as an oracle outcome: either the
request raised (network failure, non-2xx status via
`raise_for_status()`, or JSON decoding failure) or it produced a parsed
JSON body carrying an optional `error` flag, an optional `url`, and an
optional `message`. -/

/-- Outcome of the `requests.post` + `raise_for_status` + `.json()`
sequence inside `convert_html_to_pdf`. -/
inductive PostOutcome where
  | raised (msg : String)
  | responded (errorFlag : Option Bool) (url : Option String) (message : Option String)
deriving DecidableEq, Repr

/-- The dict returned by `convert_html_to_pdf`: exactly the keys
`success`, `url`, `filename`, `error`. -/
structure PdfResult where
  success : Bool
  url : Option String
  filename : String
  error : Option String
deriving DecidableEq, Repr

/-- Python truthiness of `result.get("url")`: present and non-empty. -/
def truthyOpt : Option String → Bool
  | none => false
  | some s => s ≠ ""

/-- `convert_html_to_pdf` (main.py lines 350-403).  The `try` block
turns every raised exception into the `success=False` dict with
`error=str(e)`; a parsed body succeeds iff `result.get("error") is
False and result.get("url")` holds, and otherwise falls back to
`result.get("message", "Unknown error")`. -/
def convert_html_to_pdf (outcome : PostOutcome) (filename : String) : PdfResult :=
  match outcome with
  | .raised e => ⟨false, none, filename, some e⟩
  | .responded errorFlag url message =>
      if errorFlag = some false ∧ truthyOpt url then
        ⟨true, url, filename, none⟩
      else
        ⟨false, none, filename, some (message.getD "Unknown error")⟩

/-! ## Per-turn extraction filtering and context assembly
(chat turn handler, main.py lines 887-930)

Each uploaded file is run through `gem_extract`; the Gemini call is an
oracle, so an upload is modelled as the pair
`(filename, extracted text)`.  The loop walks the uploads strictly in
order and appends one labeled block per result that passes the filter
`if gem_text and gem_text != "NO_RELEVANT_INFO"`. -/

/-- The sentinel string the chat turn handler filters out
(main.py line 899): `"NO_RELEVANT_INFO"`. -/
def sentinel_checked : String := "NO_RELEVANT_INFO"

/-- The sentinel string the Gemini extraction prompt mandates
(main.py line 165): the prompt instructs, when no relevant data is
found, to "output exactly: NO_RELEVANT_INFO_FOUND_IN_UPLOAD". -/
def sentinel_prompted : String := "NO_RELEVANT_INFO_FOUND_IN_UPLOAD"

/-- The labeled block built for one upload (main.py lines 900-902):
`f"EXTRACTED_FROM_UPLOAD File name ({uf.name}):\n{gem_text}"`. -/
def extract_block (name text : String) : String :=
  "EXTRACTED_FROM_UPLOAD File name (" ++ name ++ "):\n" ++ text

/-- The `extract_blocks` list built by the sequential upload loop
(main.py lines 888-905): for each `(filename, extracted text)` pair in
upload order, append its labeled block iff the text is non-empty
(Python truthiness) and differs from `"NO_RELEVANT_INFO"`. -/
def extract_blocks (uploads : List (String × String)) : List String :=
  uploads.foldl
    (fun acc p =>
      if p.2 ≠ "" ∧ p.2 ≠ sentinel_checked then acc ++ [extract_block p.1 p.2] else acc)
    []

/-- `context_parts` (main.py lines 922-928): the three labeled field
lines — jurisdiction and chapter defaulting to `"(unspecified)"` via
Python `or` when empty — followed, only when `extract_blocks` is
non-empty, by the newline-join of the blocks. -/
def context_parts (motion_label juris chapter : String) (blocks : List String) :
    List String :=
  ["Motion type: " ++ motion_label,
   "Jurisdiction: " ++ (if juris = "" then "(unspecified)" else juris),
   "Chapter: " ++ (if chapter = "" then "(unspecified)" else chapter)]
  ++ (if blocks = [] then [] else [String.intercalate "\n" blocks])

/-- `motion_context` (main.py line 930): the final context string is
the newline-join of `context_parts`. -/
def motion_context (motion_label juris chapter : String) (blocks : List String) :
    String :=
  String.intercalate "\n" (context_parts motion_label juris chapter blocks)

/-- `MOTION_OPTIONS` (main.py lines 14-17). -/
def MOTION_OPTIONS : List (String × String) :=
  [("value_claim", "Motion to Value Secured Claim"),
   ("avoid_lien", "Motion to Avoid Judicial Lien")]

/-- The slug computed from the sidebar selection (main.py lines 846-851):
`None` unless the selected label is one of the `MOTION_OPTIONS` values.
The chat page calls `st.stop()` when this is `none` (line 857), so no
context is ever assembled for an absent motion type. -/
def slug_of (motion_label : String) : Option String :=
  if motion_label = "— Select —" then none
  else (MOTION_OPTIONS.find? (fun p => p.2 = motion_label)).map (·.1)

/-- `occurs_in needle hay`: `needle` appears verbatim inside `hay`. -/
def occurs_in (needle hay : String) : Prop :=
  ∃ before after, hay = before ++ needle ++ after

/-! ## Knowledge store registry (admin upload form, main.py lines 787-793)

`cfg["vector_stores"]` is an insertion-ordered dict, modelled as an
association list; `client.vector_stores.create(...)` is modelled by a
deterministic fresh-identifier supply; `save_cfg` writes the whole
mapping to the file before the handler returns. -/

/-- Administrative state around the registry: the in-memory mapping,
the `vector_stores` mapping currently persisted in the config file
(`none` = no file), and the fresh-identifier supply of the backend. -/
structure RegistryState where
  store : List (String × String)
  file : Option (List (String × String))
  supply : Nat
deriving DecidableEq, Repr

/-- The opaque store identifier minted by the backend for the `n`-th
creation call. -/
def fresh_store_id (n : Nat) : String := "vs_" ++ toString n

/-- Dict lookup `cfg["vector_stores"].get(slug)`. -/
def lookup_store (reg : List (String × String)) (slug : String) : Option String :=
  (reg.find? (fun p => p.1 = slug)).map (·.2)

/-- The lazy get-or-create of the admin upload form (main.py lines
787-793): `if slug not in cfg["vector_stores"]:` provision a store,
record it in the mapping, and `save_cfg(cfg)` before returning.
Returns the store id, the successor state, and how many provisioning
calls were made (0 or 1). -/
def get_or_create (s : RegistryState) (slug : String) :
    String × RegistryState × Nat :=
  match lookup_store s.store slug with
  | some id => (id, s, 0)
  | none =>
      let id := fresh_store_id s.supply
      let store2 := s.store ++ [(slug, id)]
      (id, ⟨store2, some store2, s.supply + 1⟩, 1)

/-! ## Streaming drafting orchestrator
(`stream_response_with_file_search`, main.py lines 497-612)

The OpenAI Responses API is an oracle: the `client.responses.create`
call either raises or yields the stream's events; `requests.get` on a
PDF.co url and `client.responses.retrieve` are likewise oracles stored
in an `Env` record.  A `st.error` call is recorded in the `fatal`
field of the result and `st.warning` calls in `warnings`, so the
surfaced error behaviour is part of the returned value. -/

/-- Parsed arguments of a model function call
(`json.loads(fc.arguments)`, main.py line 569). -/
structure FnArgs where
  html_content : String
  filename : String
deriving DecidableEq, Repr

/-- A function call observed on the stream. -/
structure FnCall where
  name : String
  arguments : FnArgs
deriving DecidableEq, Repr

/-- The stream events the consuming loop distinguishes (main.py lines
548-560); anything else falls into `other` and is ignored. -/
inductive StreamEvent where
  | outputTextDelta (delta : String)
  | created (id : String)
  | functionCallArgsDone (fc : FnCall)
  | other
deriving DecidableEq, Repr

/-- A `container_file_citation` annotation as collected by
`extract_annotations_from_response` (main.py lines 473-495). -/
structure Ann where
  container_id : String
  file_id : String
  filename : String
deriving DecidableEq, Repr

/-- The finalized response object returned by
`client.responses.retrieve`, reduced to the annotations the resolver
scans out of it. -/
structure RetrievedResponse where
  annotations : List Ann
deriving DecidableEq, Repr

/-- The external-world oracles of one orchestrator invocation. -/
structure Env where
  /-- `client.responses.create(..., stream=True)` plus the iteration of
  the stream: either the raised exception's message or the event list. -/
  createOutcome : Except String (List StreamEvent)
  /-- The PDF.co backend's behaviour for one conversion request. -/
  pdfBackend : FnArgs → PostOutcome
  /-- `requests.get(url)` + `raise_for_status()` for a generated PDF. -/
  httpGet : String → Except String ByteSeq
  /-- `client.responses.retrieve(response_id)` followed by the pure
  annotation scan. -/
  retrieve : String → Except String RetrievedResponse

/-- Mutable state of the stream-consuming loop (main.py lines 543-546). -/
structure LoopSt where
  full_text : String
  response_id : Option String
  function_calls : List FnCall
deriving DecidableEq, Repr

/-- The loop state before the first event. -/
def init_loop_state : LoopSt := ⟨"", none, []⟩

/-- One iteration of the event loop (main.py lines 548-560): non-empty
text deltas are appended to the accumulator, `response.created`
records the response id, completed function-call arguments are
collected, and unrecognized events are ignored. -/
def step_event (s : LoopSt) : StreamEvent → LoopSt
  | .outputTextDelta d =>
      if d = "" then s else { s with full_text := s.full_text ++ d }
  | .created id => { s with response_id := some id }
  | .functionCallArgsDone fc =>
      { s with function_calls := s.function_calls ++ [fc] }
  | .other => s

/-- `handle_function_call` (main.py lines 428-445): dispatch on the
function name; only `convert_html_to_pdf` is known.  (The unknown-name
dict lacks the `url`/`filename` keys, i.e. they read as `None`; the
orchestrator only ever calls this with `convert_html_to_pdf`.) -/
def handle_function_call (env : Env) (function_name : String) (args : FnArgs) :
    PdfResult :=
  if function_name = "convert_html_to_pdf" then
    convert_html_to_pdf (env.pdfBackend args) args.filename
  else
    ⟨false, none, "", some ("Unknown function: " ++ function_name)⟩

/-- What Python's f-string prints for `result.get("error", "Unknown
error")` in the failure branch (main.py line 584). -/
def error_display (r : PdfResult) : String :=
  match r.error with
  | some m => m
  | none => "None"

/-- The function-call reconciliation loop (main.py lines 565-586): for
each observed `convert_html_to_pdf` call, run the local handler; on
`result.get("success") and result.get("url")` download the url —
`requests.get`/`raise_for_status` may raise, which propagates to the
outer handler — append the `(filename, bytes)` artifact and a success
status line; otherwise append a failure status line with the error
message.  Returns the updated display text and artifact list. -/
def process_function_calls (env : Env) :
    List FnCall → String → List DlFile → Except String (String × List DlFile)
  | [], text, files => .ok (text, files)
  | fc :: rest, text, files =>
      if fc.name = "convert_html_to_pdf" then
        let result := handle_function_call env "convert_html_to_pdf" fc.arguments
        if result.success ∧ truthyOpt result.url then
          match result.url with
          | some u =>
              match env.httpGet u with
              | .error e => .error e
              | .ok b =>
                  process_function_calls env rest
                    (text ++ "\n\n✅ **PDF Generated:** " ++ result.filename)
                    (files ++ [(result.filename, b)])
          | none =>
              process_function_calls env rest
                (text ++ "\n\n⚠️ **PDF Conversion Failed:** " ++ error_display result)
                files
        else
          process_function_calls env rest
            (text ++ "\n\n⚠️ **PDF Conversion Failed:** " ++ error_display result)
            files
      else
        process_function_calls env rest text files

/-- The body of `download_container_file` as it stands in the source
(main.py lines 446-471): fetch the container file's content; on any
exception warn and return `(filename, b"")`.  In `main.py` this body
is textually present but unreachable — it sits inside
`handle_function_call` after both `return` statements, and no
`def download_container_file(...)` header exists anywhere in the
module. -/
def download_container_file (fetch : String → String → Except String ByteSeq)
    (container_id file_id filename : String) : (String × ByteSeq) × List String :=
  match fetch container_id file_id with
  | .ok b => ((filename, b), [])
  | .error e =>
      ((filename, ([] : List Nat)),
       ["Could not download file " ++ filename ++ ": " ++ e])

/-- The artifact-resolution loop exactly as written at main.py lines
594-602, using the `download_container_file` body above: each
annotation is fetched independently and appended only `if file_bytes:`
(non-empty).  Returns the resolved artifacts and the warnings. -/
def resolve_annotations (fetch : String → String → Except String ByteSeq)
    (anns : List Ann) : List DlFile × List String :=
  anns.foldl
    (fun acc ann =>
      let r := download_container_file fetch ann.container_id ann.file_id ann.filename
      ((if r.1.2 ≠ ([] : List Nat) then acc.1 ++ [r.1] else acc.1), acc.2 ++ r.2))
    ([], [])

/-- The runtime semantics of the `if response_id:` block (main.py lines
589-604).  Because `download_container_file` is an unbound name at
module scope (see `download_container_file` above), the first loop
iteration raises `NameError`, which the blanket
`except Exception as e:` at line 603 turns into a single warning; so
whenever `retrieve` succeeds with a non-empty annotation list, no
container artifact is ever appended. -/
def retrieve_files_block (env : Env) (response_id : Option String)
    (files : List DlFile) : List DlFile × List String :=
  match response_id with
  | none => (files, [])
  | some rid =>
      match env.retrieve rid with
      | .error e =>
          (files, ["Could not retrieve files from response: " ++ e])
      | .ok resp =>
          match resp.annotations with
          | [] => (files, [])
          | _ :: _ =>
              (files,
               ["Could not retrieve files from response: name " ++
                "'download_container_file' is not defined"])

/-- The value and surfaced errors of one orchestrator invocation:
the returned `(full_text, files_to_download)` pair together with the
`st.error` (fatal) and `st.warning` (soft) messages emitted. -/
structure OrchResult where
  text : String
  files : List DlFile
  fatal : Option String
  warnings : List String
deriving DecidableEq, Repr

/-- `stream_response_with_file_search` (main.py lines 497-612): the
outer `try` covers the create call, the stream loop, the function-call
reconciliation (including the PDF download), and hands any exception
to `except` → `st.error` → `return "", []`.  The retrieve block has
its own inner `try` whose failures only warn. -/
def stream_response_with_file_search (env : Env) : OrchResult :=
  match env.createOutcome with
  | .error e => ⟨"", [], some e, []⟩
  | .ok events =>
      let s := events.foldl step_event init_loop_state
      match process_function_calls env s.function_calls s.full_text [] with
      | .error e => ⟨"", [], some e, []⟩
      | .ok (text, files) =>
          let r := retrieve_files_block env s.response_id files
          ⟨text, r.1, none, r.2⟩

/-! ## Chat turn handler (main.py lines 887-957) -/

/-- One entry of `st.session_state.history`. -/
structure Turn where
  role : String
  content : String
  files : List DlFile
deriving DecidableEq, Repr

/-- The history mutation of one chat turn (main.py lines 911-953): the
user turn is appended before the orchestrator call, and the assistant
turn is appended unconditionally afterwards with whatever `answer` and
`new_files` came back — including the empty answer of the fatal path. -/
def chat_turn (env : Env) (history : List Turn) (prompt : String)
    (blobs : List DlFile) : List Turn × OrchResult :=
  let h1 := history ++ [⟨"user", prompt, blobs⟩]
  let r := stream_response_with_file_search env
  (h1 ++ [⟨"assistant", r.text, r.files⟩], r)

/-! ## Spec-worded comparison definition and concrete test fixtures -/

/-- The extraction-block list as the specification words it ("contains
exactly the non-sentinel results in upload order, each uniquely
labeled by its source filename"): every result whose text differs from
the sentinel, in order, labeled.  This definition follows the spec's
sentence and is compared against `extract_blocks`, which follows the
code. -/
def spec_extract_blocks (uploads : List (String × String)) : List String :=
  (uploads.filter (fun p => p.2 != sentinel_checked)).map
    (fun p => extract_block p.1 p.2)

/-- Container fetch oracle for the fault-isolation scenario: the
download for container `cntr_2` fails, the other two succeed. -/
def c2_fetch : String → String → Except String ByteSeq :=
  fun cid _ => if cid = "cntr_2" then .error "404 Client Error" else .ok [80, 75]

/-- Three container-file annotations on one finalized response. -/
def c2_anns : List Ann :=
  [⟨"cntr_1", "cfile_1", "Motion.docx"⟩,
   ⟨"cntr_2", "cfile_2", "Order.docx"⟩,
   ⟨"cntr_3", "cfile_3", "Exhibit.docx"⟩]

/-- Environment whose retrieve call succeeds and reports the three
annotations above. -/
def c2_env : Env where
  createOutcome := .ok []
  pdfBackend := fun _ => .raised "unused"
  httpGet := fun _ => .error "unused"
  retrieve := fun _ => .ok ⟨c2_anns⟩

/-- Environment whose primary dispatch raises a connection error. -/
def c3_env : Env where
  createOutcome := .error "Connection error"
  pdfBackend := fun _ => .raised "unused"
  httpGet := fun _ => .error "unused"
  retrieve := fun _ => .error "unused"

/-- Environment whose stream completes normally but whose follow-up
retrieve call raises (an SDK that rejects the richer call). -/
def c4_env : Env where
  createOutcome := .ok [.created "resp_9", .outputTextDelta "Here is the draft."]
  pdfBackend := fun _ => .raised "unused"
  httpGet := fun _ => .error "unused"
  retrieve := fun _ => .error "unexpected keyword argument include"

/-- A completed HTML→PDF function call as observed on the stream. -/
def c9_fc : FnCall :=
  ⟨"convert_html_to_pdf", ⟨"<html><body>Motion</body></html>", "Motion.pdf"⟩⟩

/-- Environment for the successful conversion scenario: PDF.co answers
with a url and the download of that url yields the PDF bytes. -/
def c9_env : Env where
  createOutcome := .ok []
  pdfBackend := fun _ =>
    .responded (some false) (some "https://pdf.co/out/Motion.pdf") none
  httpGet := fun u =>
    if u = "https://pdf.co/out/Motion.pdf" then .ok [37, 80, 68, 70] else .error "404"
  retrieve := fun _ => .ok ⟨[]⟩

/-- Environment for the failed conversion scenario: PDF.co reports an
error message. -/
def c9_fail_env : Env where
  createOutcome := .ok []
  pdfBackend := fun _ => .responded (some true) none (some "Invalid HTML")
  httpGet := fun _ => .error "unused"
  retrieve := fun _ => .ok ⟨[]⟩

/-! ## Theorems -/

/-- C8: writing the configuration with `save_cfg` and reloading it with
`load_cfg` yields a structurally equal configuration (the whole-file
overwrite loses no categories), a missing file loads as the empty
registry, and a file without the `vector_stores` key is defaulted
rather than crashing. -/
theorem cfg_round_trip :
    (∀ c : Cfg, load_cfg (save_cfg c) = c) ∧
    load_cfg none = ⟨[], []⟩ ∧
    (∀ extra, load_cfg (some ⟨none, extra⟩) = ⟨[], extra⟩) :=
  ⟨fun _ => rfl, rfl, fun _ => rfl⟩

/-- C10: for every backend outcome, `convert_html_to_pdf` returns a
result with exactly the fields success, url, filename and error and
never raises; the filename always echoes the request, the url is
present exactly on success, the error is present exactly on failure,
and a raised exception yields the failure result carrying its
message. -/
theorem convert_html_to_pdf_contract :
    ∀ (outcome : PostOutcome) (fn : String),
      ((convert_html_to_pdf outcome fn).filename = fn) ∧
      ((convert_html_to_pdf outcome fn).url.isSome =
        (convert_html_to_pdf outcome fn).success) ∧
      ((convert_html_to_pdf outcome fn).error.isSome =
        !(convert_html_to_pdf outcome fn).success) ∧
      (∀ e, convert_html_to_pdf (.raised e) fn = ⟨false, none, fn, some e⟩) := by
  intro outcome fn
  refine ⟨?_, ?_, ?_, fun e => rfl⟩ <;>
    · cases outcome with
      | raised e => rfl
      | responded ef u m =>
          by_cases h : ef = some false ∧ truthyOpt u
          · cases u with
            | none => simp [truthyOpt] at h
            | some s => simp [convert_html_to_pdf, h]
          · simp [convert_html_to_pdf, h]

/-- C1: evaluating the chat turn handler on an upload whose extraction
equals the sentinel the extraction prompt itself mandates
(`NO_RELEVANT_INFO_FOUND_IN_UPLOAD`, main.py line 165): the filter at
line 899 only checks `NO_RELEVANT_INFO`, so a labeled block containing
the sentinel is kept and the sentinel text appears verbatim in the
`motion_context` string passed to the drafting call. -/
theorem sentinel_text_reaches_motion_context :
    extract_blocks [("schedule.pdf", sentinel_prompted)] =
      [extract_block "schedule.pdf" sentinel_prompted] ∧
    occurs_in sentinel_prompted
      (motion_context "Motion to Value Secured Claim" "" ""
        (extract_blocks [("schedule.pdf", sentinel_prompted)])) := by
  refine ⟨by decide,
    ⟨"Motion type: Motion to Value Secured Claim\nJurisdiction: (unspecified)\nChapter: (unspecified)\nEXTRACTED_FROM_UPLOAD File name (schedule.pdf):\n",
     "", by decide⟩⟩

/-- C5 counterexample: an upload whose extraction text is empty is not
the sentinel, yet the code omits it, so the block section does not
contain exactly the non-sentinel results (`spec_extract_blocks`). -/
theorem extract_blocks_not_spec_blocks :
    extract_blocks
        [("scan.pdf", ""),
         ("schedule.pdf", "EXTRACTED_FROM_UPLOAD: Debtor Name: Jane Doe")] ≠
      spec_extract_blocks
        [("scan.pdf", ""),
         ("schedule.pdf", "EXTRACTED_FROM_UPLOAD: Debtor Name: Jane Doe")] := by
  decide

theorem foldl_extract_go :
    ∀ (uploads : List (String × String)) (acc : List String),
      uploads.foldl
        (fun acc p =>
          if p.2 ≠ "" ∧ p.2 ≠ sentinel_checked then acc ++ [extract_block p.1 p.2]
          else acc)
        acc
      = acc ++
          (uploads.filter (fun p => p.2 != "" && p.2 != sentinel_checked)).map
            (fun p => extract_block p.1 p.2) := by
  intro uploads
  induction uploads with
  | nil => intro acc; simp
  | cons p rest ih =>
      intro acc
      by_cases h : p.2 ≠ "" ∧ p.2 ≠ sentinel_checked
      · have hb : (p.2 != "" && p.2 != sentinel_checked) = true := by
          simp only [Bool.and_eq_true, bne_iff_ne]
          exact h
        simp [List.filter_cons, hb, if_pos h, ih]
      · have hb : (p.2 != "" && p.2 != sentinel_checked) = false := by
          simp only [Bool.and_eq_false_iff, bne_eq_false_iff_eq]
          tauto
        simp [List.filter_cons, hb, if_neg h, ih]

/-- C5 (amended): the extraction-block list contains exactly the
results that are non-empty and differ from the checked sentinel, in
upload order (the sequential loop is the fold), each labeled with its
source filename. -/
theorem extract_blocks_exact :
    ∀ uploads : List (String × String),
      extract_blocks uploads =
        (uploads.filter (fun p => p.2 != "" && p.2 != sentinel_checked)).map
          (fun p => extract_block p.1 p.2) := by
  intro uploads
  simpa [extract_blocks] using foldl_extract_go uploads []

/-- C6: whenever a chat turn proceeds (a motion type is selected, so
`slug_of` is `some`), the assembled context opens with one labeled
line per field — motion type, jurisdiction, chapter — with the
explicit placeholder substituted for each absent optional value; no
field line is omitted. -/
theorem context_fields_never_omitted :
    ∀ (motion_label juris chapter : String) (blocks : List String),
      (slug_of motion_label).isSome →
      (context_parts motion_label juris chapter blocks).take 3 =
        ["Motion type: " ++ motion_label,
         "Jurisdiction: " ++ (if juris = "" then "(unspecified)" else juris),
         "Chapter: " ++ (if chapter = "" then "(unspecified)" else chapter)] := by
  intro ml j c bs _
  by_cases hb : bs = [] <;> simp [context_parts, hb]

/-- Witness for C6 at a concrete selected motion type with both
optional fields absent. -/
theorem context_fields_never_omitted_witness :
    (context_parts "Motion to Value Secured Claim" "" "" []).take 3 =
      ["Motion type: Motion to Value Secured Claim",
       "Jurisdiction: (unspecified)",
       "Chapter: (unspecified)"] :=
  context_fields_never_omitted "Motion to Value Secured Claim" "" "" [] (by decide)

theorem lookup_store_append_self :
    ∀ (reg : List (String × String)) (slug id : String),
      lookup_store reg slug = none →
      lookup_store (reg ++ [(slug, id)]) slug = some id := by
  intro reg slug id h
  simp only [lookup_store, Option.map_eq_none'] at h
  simp [lookup_store, List.find?_append, h, List.find?]

/-- C7: calling the registry's get-or-create twice for the same
category without an intervening reset returns the identical store
identifier both times; the second call provisions nothing and leaves
the state unchanged; the first call provisions exactly once when the
entry is absent — persisting the updated mapping before returning —
and returns the existing entry unchanged, with no provisioning, when
it is present. -/
theorem get_or_create_idempotent :
    ∀ (s : RegistryState) (slug : String),
      (get_or_create s slug).1 = (get_or_create (get_or_create s slug).2.1 slug).1 ∧
      (get_or_create (get_or_create s slug).2.1 slug).2.2 = 0 ∧
      (get_or_create (get_or_create s slug).2.1 slug).2.1 = (get_or_create s slug).2.1 ∧
      (lookup_store s.store slug = none →
        (get_or_create s slug).2.2 = 1 ∧
        (get_or_create s slug).2.1.file = some (get_or_create s slug).2.1.store ∧
        lookup_store (get_or_create s slug).2.1.store slug =
          some (get_or_create s slug).1) ∧
      (∀ id0, lookup_store s.store slug = some id0 →
        (get_or_create s slug).2.2 = 0 ∧ (get_or_create s slug).2.1 = s ∧
        (get_or_create s slug).1 = id0) := by
  intro s slug
  cases h : lookup_store s.store slug with
  | none =>
      have h2 : lookup_store (s.store ++ [(slug, fresh_store_id s.supply)]) slug
          = some (fresh_store_id s.supply) := lookup_store_append_self _ _ _ h
      refine ⟨?_, ?_, ?_, ?_, ?_⟩ <;> simp [get_or_create, h, h2]
  | some id => simp [get_or_create, h]

/-- Witness for C7: from an empty registry, the first call provisions
and persists the mapping containing the new entry before returning. -/
theorem get_or_create_idempotent_witness :
    (get_or_create ⟨[], none, 0⟩ "value_claim").2.2 = 1 ∧
    (get_or_create ⟨[], none, 0⟩ "value_claim").2.1.file =
      some (get_or_create ⟨[], none, 0⟩ "value_claim").2.1.store ∧
    lookup_store (get_or_create ⟨[], none, 0⟩ "value_claim").2.1.store "value_claim" =
      some (get_or_create ⟨[], none, 0⟩ "value_claim").1 :=
  (get_or_create_idempotent ⟨[], none, 0⟩ "value_claim").2.2.2.1 rfl

/-- C3: when the primary streaming dispatch raises, the orchestrator
returns the empty answer with no artifacts (and hence no citations), a
fatal error is surfaced, and the chat turn handler still appends the
assistant turn with that empty content, keeping turn indexing
consistent. -/
theorem primary_dispatch_failure_returns_empty :
    ∀ (env : Env) (history : List Turn) (prompt : String) (blobs : List DlFile)
      (e : String),
      env.createOutcome = .error e →
      stream_response_with_file_search env = ⟨"", [], some e, []⟩ ∧
      (chat_turn env history prompt blobs).1 =
        history ++ [⟨"user", prompt, blobs⟩, ⟨"assistant", "", []⟩] := by
  intro env history prompt blobs e h
  have hs : stream_response_with_file_search env = ⟨"", [], some e, []⟩ := by
    unfold stream_response_with_file_search
    rw [h]
  exact ⟨hs, by simp [chat_turn, hs]⟩

/-- Witness for C3: a concrete connection error on dispatch. -/
theorem primary_dispatch_failure_returns_empty_witness :
    stream_response_with_file_search c3_env = ⟨"", [], some "Connection error", []⟩ ∧
    (chat_turn c3_env [] "draft the motion" []).1 =
      [⟨"user", "draft the motion", []⟩, ⟨"assistant", "", []⟩] :=
  primary_dispatch_failure_returns_empty c3_env [] "draft the motion" []
    "Connection error" rfl

/-- C4: when the stream completes but the follow-up retrieve call
fails (for any reason, including an SDK that rejects the richer
parameters), the orchestrator still returns the accumulated answer
text and whatever artifacts the function-call path produced, surfaces
only a soft warning, and no exception propagates (the fatal field
stays empty). -/
theorem retrieve_failure_is_nonfatal :
    ∀ (env : Env) (events : List StreamEvent) (rid msg t : String)
      (fs : List DlFile),
      env.createOutcome = .ok events →
      (events.foldl step_event init_loop_state).response_id = some rid →
      process_function_calls env
          (events.foldl step_event init_loop_state).function_calls
          (events.foldl step_event init_loop_state).full_text [] = .ok (t, fs) →
      env.retrieve rid = .error msg →
      stream_response_with_file_search env =
        ⟨t, fs, none, ["Could not retrieve files from response: " ++ msg]⟩ := by
  intro env events rid msg t fs h1 h2 h3 h4
  simp [stream_response_with_file_search, retrieve_files_block, h1, h2, h3, h4]

/-- Witness for C4: a stream that yields text and a response id, and a
retrieve call that raises. -/
theorem retrieve_failure_is_nonfatal_witness :
    stream_response_with_file_search c4_env =
      ⟨"Here is the draft.", [], none,
       ["Could not retrieve files from response: unexpected keyword argument include"]⟩ :=
  retrieve_failure_is_nonfatal c4_env
    [.created "resp_9", .outputTextDelta "Here is the draft."] "resp_9"
    "unexpected keyword argument include" "Here is the draft." [] rfl rfl rfl rfl

/-- C9: for an observed HTML→PDF function call whose local handler
succeeds with a url, the orchestrator downloads the url, appends
exactly one artifact carrying the handler's filename, and appends the
PDF-generated status line; when the handler fails, the failure status
line with the error message is appended and no artifact is added. -/
theorem function_call_pdf_handling :
    ∀ (env : Env) (fc : FnCall) (text : String) (r : PdfResult),
      fc.name = "convert_html_to_pdf" →
      r = handle_function_call env "convert_html_to_pdf" fc.arguments →
      ((∀ u b, r.success = true → r.url = some u → u ≠ "" → env.httpGet u = .ok b →
          process_function_calls env [fc] text [] =
            .ok (text ++ "\n\n✅ **PDF Generated:** " ++ r.filename,
                 [(r.filename, b)])) ∧
       (r.success = false →
          process_function_calls env [fc] text [] =
            .ok (text ++ "\n\n⚠️ **PDF Conversion Failed:** " ++ error_display r,
                 []))) := by
  intro env fc text r hname hr
  constructor
  · intro u b hsucc hurl hne hget
    simp [process_function_calls, hname, ← hr, hsucc, hurl, truthyOpt, hne, hget]
  · intro hfail
    simp [process_function_calls, hname, ← hr, hfail]

/-- Witness for C9: one successful conversion with a downloaded PDF,
and one failed conversion with the surfaced error message. -/
theorem function_call_pdf_handling_witness :
    process_function_calls c9_env [c9_fc] "Draft complete." [] =
      .ok ("Draft complete.\n\n✅ **PDF Generated:** Motion.pdf",
           [("Motion.pdf", [37, 80, 68, 70])]) ∧
    process_function_calls c9_fail_env [c9_fc] "Draft complete." [] =
      .ok ("Draft complete.\n\n⚠️ **PDF Conversion Failed:** Invalid HTML", []) :=
  ⟨(function_call_pdf_handling c9_env c9_fc "Draft complete." _ rfl rfl).1
      "https://pdf.co/out/Motion.pdf" [37, 80, 68, 70] rfl rfl (by decide) rfl,
   (function_call_pdf_handling c9_fail_env c9_fc "Draft complete." _ rfl rfl).2 rfl⟩

/-- C2: evaluating the artifact-resolution code at a finalized response
carrying three container-file annotations of which only the second
fails to download.  The loop as written (`resolve_annotations`, using
the `download_container_file` body present in the source) would return
the two successful artifacts with one warning; but because
`download_container_file` is an unbound name in `main.py`, the
program's retrieve block (`retrieve_files_block`) resolves no
container artifact at all and surfaces a single blanket warning. -/
theorem container_artifacts_never_resolved :
    (resolve_annotations c2_fetch c2_anns).1 =
      [("Motion.docx", [80, 75]), ("Exhibit.docx", [80, 75])] ∧
    (resolve_annotations c2_fetch c2_anns).2.length = 1 ∧
    (retrieve_files_block c2_env (some "resp_1") []).1 = [] ∧
    (retrieve_files_block c2_env (some "resp_1") []).2.length = 1 := by
  refine ⟨?_, ?_, ?_, ?_⟩ <;> rfl

end MotionsAssistant
